import Mathlib

/-!
# MainWindow of the interferometer video analyser

A shallow embedding of `src/source/mainWindow.cpp`:

* `updateRoi`: the ROI markers drawn on the scene and the bound handed to
  `Analyzer::setBound`;
* `analyze`: the validation guards, the "settings unchanged" gate on the
  function-local static `prevSettings`, and the calls made on `Analyzer` and
  `FileIo`;
* `updateSlider`: the three `valueChanged` handlers together with
  `QSlider::setValue`, which clamps to the slider range and re-enters the
  handler when the value changes.

C++ `int` values are modelled in `Int`, and every `int` addition, subtraction
and division of the source goes through `wrapInt32`, the 32-bit two's
complement wrap-around of the compiled code (`iadd`, `isub`, `cdiv`).  The
sliders and `analyze` only compare and copy `int` values.  `double` values read
from the two `QDoubleSpinBox`es (range 0 to 1000) and the mean intensities are
finite, and are modelled in `ℚ`, which carries the same order.
-/

namespace MainWindow

/-! ## Data -/

/-- Qt `QPoint`: integer pixel coordinates. -/
structure QPoint where
  x : Int
  y : Int
  deriving DecidableEq

/-- Qt `QRectF(left, top, width, height)`.  `updateRoi` builds it from `int`
expressions, so the four numbers are integers. -/
structure QRectF where
  left : Int
  top : Int
  width : Int
  height : Int
  deriving DecidableEq

/-- The four arguments of `Analyzer::setBound(xMin, xMax, yMin, yMax)`. -/
structure Bound where
  xMin : Int
  xMax : Int
  yMin : Int
  yMax : Int
  deriving DecidableEq

/-- What `updateRoi` produces: the two strokes of the red cross (each a pair
`moveTo`, `lineTo`), the red rectangle and the analyzer bound. -/
structure RoiMarks where
  cross : List (QPoint × QPoint)
  rect : QRectF
  bound : Bound
  deriving DecidableEq

/-! ## `MainWindow::updateRoi` (lines 278 to 305) -/

/-- The value a 32-bit `int` holds after an operation whose mathematical result
is `n`: the representative of `n` modulo `2 ^ 32` in `[-2 ^ 31, 2 ^ 31)`. -/
def wrapInt32 (n : Int) : Int := (n + 2147483648) % 4294967296 - 2147483648

/-- The C++ sum `a + b` on `int`. -/
def iadd (a b : Int) : Int := wrapInt32 (a + b)

/-- The C++ difference `a - b` on `int`. -/
def isub (a b : Int) : Int := wrapInt32 (a - b)

/-- The C++ quotient `a / b` on `int`: the quotient truncated towards zero. -/
def cdiv (a b : Int) : Int := wrapInt32 (Int.tdiv a b)

/-- A value that fits a 32-bit `int`. -/
def fitsInt32 (n : Int) : Prop := -2147483648 ≤ n ∧ n ≤ 2147483647

instance (n : Int) : Decidable (fitsInt32 n) := by
  unfold fitsInt32; infer_instance

/-- Embedding of `MainWindow::updateRoi`: the old markers are removed, then the
cross, the rectangle and the bound are rebuilt from `roiCenter` and `roiSize`. -/
def updateRoi (roiCenter : QPoint) (roiSize : Int) : RoiMarks :=
  { cross :=
      [ (⟨isub roiCenter.x 10, isub roiCenter.y 10⟩, ⟨iadd roiCenter.x 10, iadd roiCenter.y 10⟩),
        (⟨isub roiCenter.x 10, iadd roiCenter.y 10⟩, ⟨iadd roiCenter.x 10, isub roiCenter.y 10⟩) ]
    rect :=
      { left := isub roiCenter.x (cdiv roiSize 2)
        top := isub roiCenter.y (cdiv roiSize 2)
        width := roiSize
        height := roiSize }
    bound :=
      { xMin := isub roiCenter.x (cdiv roiSize 2)
        xMax := iadd roiCenter.x (cdiv roiSize 2)
        yMin := isub roiCenter.y (cdiv roiSize 2)
        yMax := iadd roiCenter.y (cdiv roiSize 2) } }

/-- Embedding of `MainWindow::setRoiCenter`: store the point, then `updateRoi`. -/
def setRoiCenter (pt : QPoint) (roiSize : Int) : QPoint × RoiMarks :=
  (pt, updateRoi pt roiSize)

/-- Embedding of `MainWindow::showRoiSizeDialog`: `QInputDialog::getInt` with
minimum 1 and maximum 1000 yields `value` in that range and the flag `ok`; only
an accepted dialog stores the value and redraws.  The result is the new
`roiSize` and the markers redrawn, if any. -/
def showRoiSizeDialog (roiCenter : QPoint) (roiSize : Int) (value : Int) (ok : Bool) :
    Int × Option RoiMarks :=
  if ok then (value, some (updateRoi roiCenter value)) else (roiSize, none)

/-! ## `MainWindow::analyze` (lines 222 to 262) -/

/-- A result or chart series: `(frame index, mean intensity)` samples in the
order they were appended. -/
abbrev Series := List (Int × ℚ)

/-- The record `AnalyzeSettings` (lines 22 to 26) that `analyze` keeps in its
function-local static `prevSettings`. -/
structure AnalyzeSettings where
  fileName : String
  roiSize : Int
  roiCenter : QPoint
  deriving DecidableEq

/-- What `analyze` reads from the window when the button is clicked: the
members `fileName`, `roiSize`, `roiCenter`, the two spin boxes and the two
range sliders. -/
structure Request where
  fileName : String
  roiSize : Int
  roiCenter : QPoint
  thresholdLow : ℚ
  thresholdHigh : ℚ
  rangeSliderMin : Int
  rangeSliderMax : Int
  deriving DecidableEq

/-- What `analyze` can write and what outlives the call: the static
`prevSettings`, the text of `labelCircleChange` (`none` is the initial
"N/A", `some n` the number put into "%1"), the chart series and the result
series held by the `Analyzer`. -/
structure Session where
  prevSettings : AnalyzeSettings
  labelCircleChange : Option Int
  lineSeries : Series
  results : Series
  deriving DecidableEq

/-- Calls that leave the window: the warning box and the three methods of
`Analyzer` and `FileIo` that `analyze` uses. -/
inductive Call where
  | warning (text : String)
  | clearResults
  | readFramesAsync (fileName : String)
  | calculateCircleChange (thresholdLow thresholdHigh : ℚ) (rangeMin rangeMax : Int)
  deriving DecidableEq

/-- Modelled from the spec: `Analyzer::clearResults` is not among the sources;
the spec's `ResultSeries.clear()` "drops all entries". -/
def clearResults (_results : Series) : Series := []

/-- Modelled from the spec: `Analyzer::calculateMean` is not among the sources;
per the spec each delivered frame appends its `(frameIndex, meanIntensity)`
pair to the result series. -/
def calculateMean (results : Series) (frameIndex : Int) (meanIntensity : ℚ) : Series :=
  results ++ [(frameIndex, meanIntensity)]

/-- The state of a freshly started program: a static `AnalyzeSettings` holds the
empty string, `roiSize` 0 and the null `QPoint`; the label reads "N/A". -/
def Session.initial : Session :=
  { prevSettings := { fileName := "", roiSize := 0, roiCenter := ⟨0, 0⟩ }
    labelCircleChange := none
    lineSeries := []
    results := [] }

/-- Embedding of `MainWindow::analyze`.  The argument `counter` stands for
`Analyzer::calculateCircleChange` evaluated on the analyzer's current result
series.  `FileIo::readFramesAsync` only schedules the read: frames reach the
analyzer through the `loadFrame` signal after `analyze` has returned, so the
call leaves `results` as it is.  `lineSeries->clear()` empties the chart series.
The result is the new session and the calls made, in order. -/
def analyze (counter : Series → ℚ → ℚ → Int → Int → Int) (s : Session) (r : Request) :
    Session × List Call :=
  if r.fileName = "" then
    (s, [Call.warning "請先選擇影片檔案"])
  else if r.roiCenter.x < 0 ∨ r.roiCenter.y < 0 then
    (s, [Call.warning "請先設定ROI"])
  else if r.thresholdLow ≥ r.thresholdHigh then
    (s, [Call.warning "閾值（低）必須小於閾值（高）"])
  else
    let changed : Bool :=
      decide (s.prevSettings.fileName ≠ r.fileName ∨ s.prevSettings.roiSize ≠ r.roiSize ∨
        s.prevSettings.roiCenter ≠ r.roiCenter)
    let s1 : Session :=
      if changed then { s with lineSeries := [], results := clearResults s.results } else s
    let calls1 : List Call :=
      if changed then [Call.clearResults, Call.readFramesAsync r.fileName] else []
    let circleChange : Int :=
      counter s1.results r.thresholdLow r.thresholdHigh r.rangeSliderMin r.rangeSliderMax
    ({ s1 with
        labelCircleChange := some circleChange
        prevSettings := { fileName := r.fileName, roiSize := r.roiSize, roiCenter := r.roiCenter } },
      calls1 ++
        [Call.calculateCircleChange r.thresholdLow r.thresholdHigh r.rangeSliderMin
          r.rangeSliderMax])

/-- Embedding of `MainWindow::updateResults` (lines 166 to 180), chart part:
the samples `meanIntesity[0 .. size)` are appended at x positions
`startFrame + i`. -/
def updateResults (lineSeries : Series) (meanIntesity : List ℚ) (startFrame : Int) : Series :=
  lineSeries ++ meanIntesity.enum.map (fun p => (iadd startFrame (p.1 : Int), p.2))

/-- What can happen to a session: the analyze button is clicked with the window
in a given state; a frame is delivered to the analyzer (`FileIo::loadFrame` to
`Analyzer::calculateMean`, line 140); the analyzer reports samples to the
window (`Analyzer::updateResults` to `MainWindow::updateResults`, line 141). -/
inductive Event where
  | click (r : Request)
  | loadFrame (frameIndex : Int) (meanIntensity : ℚ)
  | updateResults (meanIntesity : List ℚ) (startFrame : Int)
  deriving DecidableEq

/-- One event applied to a session. -/
def step (counter : Series → ℚ → ℚ → Int → Int → Int) (s : Session) : Event → Session × List Call
  | Event.click r => analyze counter s r
  | Event.loadFrame i m => ({ s with results := calculateMean s.results i m }, [])
  | Event.updateResults ms start =>
    ({ s with lineSeries := updateResults s.lineSeries ms start }, [])

/-- A sequence of events applied from left to right. -/
def run (counter : Series → ℚ → ℚ → Int → Int → Int) (s : Session) (es : List Event) : Session :=
  es.foldl (fun t e => (step counter t e).1) s

/-- A request passes validation when none of the three guards at the top of
`analyze` fires: a video is selected, the ROI is set and the low threshold is
below the high one. -/
def passesValidation (r : Request) : Prop :=
  r.fileName ≠ "" ∧ ¬ (r.roiCenter.x < 0 ∨ r.roiCenter.y < 0) ∧ r.thresholdLow < r.thresholdHigh

instance (r : Request) : Decidable (passesValidation r) := by
  unfold passesValidation; infer_instance

/-- The comparison key of a request: video, ROI size and ROI center. -/
def Request.settings (r : Request) : AnalyzeSettings :=
  { fileName := r.fileName, roiSize := r.roiSize, roiCenter := r.roiCenter }

/-- An event that is not a validated request: a frame delivery or a click that
one of the guards turns away. -/
def Event.notValidated : Event → Prop
  | Event.click r => ¬ passesValidation r
  | Event.loadFrame _ _ => True
  | Event.updateResults _ _ => True

instance (e : Event) : Decidable e.notValidated := by
  cases e <;> (unfold Event.notValidated; infer_instance)

/-! ## The threshold event counter behind `calculateCircleChange` (spec 4.3, 4.4) -/

/-- The two classifications of a sample. -/
inductive Level where
  | below
  | above
  deriving DecidableEq

/-- Errors of the counter. -/
inductive CounterError where
  | InvalidThresholdError
  deriving DecidableEq

/-- Modelled from the spec: `ResultSeries.range(startIndex, endIndex)` of the
absent `Analyzer`: the entries whose index lies within the inclusive bounds,
in series order; it never fails. -/
def range (series : Series) (startIndex endIndex : Int) : Series :=
  series.filter (fun p => decide (startIndex ≤ p.1 ∧ p.1 ≤ endIndex))

/-- Modelled from the spec: the per-sample classifier of the absent counter:
"below" if value ≤ low, "above" if value ≥ high, indeterminate (`none`) if
strictly between. -/
def classify (low high : ℚ) (value : ℚ) : Option Level :=
  if value ≤ low then some Level.below
  else if value ≥ high then some Level.above
  else none

/-- Modelled from the spec: the walk of the absent counter over the values in
index order.  The state is the current classification (`none` before the first
classified sample) and the number of events so far; an indeterminate sample
retains the classification, and an event is counted each time the classifier
goes from "below" to "above" or from "above" to "below". -/
def walk (low high : ℚ) : Option Level → Nat → List ℚ → Nat
  | _, count, [] => count
  | state, count, value :: rest =>
    match classify low high value, state with
    | none, _ => walk low high state count rest
    | some c, none => walk low high (some c) count rest
    | some c, some p => walk low high (some c) (if p = c then count else count + 1) rest

/-- Modelled from the spec: `countTransitions(series, startIndex, endIndex, low,
high)` of the absent `Analyzer`: requires `low < high` and fails with
`InvalidThresholdError` otherwise; else walks the series restricted to the
range, starting in the indeterminate state. -/
def countTransitions (series : Series) (startIndex endIndex : Int) (low high : ℚ) :
    Except CounterError Nat :=
  if low < high then
    Except.ok (walk low high none 0 ((range series startIndex endIndex).map Prod.snd))
  else
    Except.error CounterError.InvalidThresholdError

/-- Modelled from the spec: `Analyzer::calculateCircleChange(low, high, start,
end)` is not among the sources; this is the count of `countTransitions` on the
analyzer's series with the argument order of the call in `analyze`, which has
checked `low < high` before it calls. -/
def calculateCircleChange (results : Series) (low high : ℚ) (start stop : Int) : Int :=
  (walk low high none 0 ((range results start stop).map Prod.snd) : Nat)

/-- The classifications met along a list of values: samples strictly between
the thresholds carry none of their own and are passed over. -/
def classified (low high : ℚ) (values : List ℚ) : List Level :=
  values.filterMap (classify low high)

/-- The number of switches along a sequence of classifications: the adjacent
pairs that differ.  The first element has no predecessor and is not counted. -/
def switches : List Level → Nat
  | a :: b :: rest => (if a = b then 0 else 1) + switches (b :: rest)
  | _ => 0

/-! ## The sliders: `QSlider::setValue` and `MainWindow::updateSlider` (lines 350 to 390) -/

/-- The three sliders, which share minimum 0 and one maximum, the number shown
by each of the three labels, and the indices passed to `FileIo::getFrame`,
oldest first. -/
structure Sliders where
  maximum : Int
  rangeSliderMin : Int
  rangeSliderMax : Int
  frameSlider : Int
  labelRangeMin : Int
  labelRangeMax : Int
  labelFrame : Int
  getFrame : List Int
  deriving DecidableEq

/-- Names of the three sliders. -/
inductive Slider where
  | rangeSliderMin
  | rangeSliderMax
  | frameSlider
  deriving DecidableEq

/-- Qt `qBound(min, val, max)`, which is `qMax(min, qMin(max, val))`. -/
def qBound (lo val hi : Int) : Int := max lo (min hi val)

/-- The current value of a slider. -/
def Sliders.value (s : Sliders) : Slider → Int
  | Slider.rangeSliderMin => s.rangeSliderMin
  | Slider.rangeSliderMax => s.rangeSliderMax
  | Slider.frameSlider => s.frameSlider

/-- Store a value in a slider. -/
def Sliders.store (s : Sliders) (which : Slider) (v : Int) : Sliders :=
  match which with
  | Slider.rangeSliderMin => { s with rangeSliderMin := v }
  | Slider.rangeSliderMax => { s with rangeSliderMax := v }
  | Slider.frameSlider => { s with frameSlider := v }

/-- Embedding of `QAbstractSlider::setValue`: the value is clamped to the slider
range; if it equals the current value nothing happens, otherwise it is stored
and `valueChanged` is emitted, which runs the connected handler `emit` before
`setValue` returns. -/
def setValue (emit : Slider → Int → Sliders → Option Sliders) (which : Slider) (v : Int)
    (s : Sliders) : Option Sliders :=
  if qBound 0 v s.maximum = s.value which then some s
  else emit which (qBound 0 v s.maximum) (s.store which (qBound 0 v s.maximum))

/-- Embedding of `MainWindow::updateSlider(min, max, value)`.  The first
argument bounds the depth of nested `valueChanged` handlers; `none` means the
bound was hit.  The three lambdas connected in the constructor (lines 149 to
154) are `emit`.  The scene redraw at the end of the `value` branch touches
neither sliders nor labels and is left out. -/
def updateSlider : Nat → Int → Int → Int → Sliders → Option Sliders
  | 0, _, _, _, _ => none
  | fuel + 1, min, max, value, s0 => do
    let emit : Slider → Int → Sliders → Option Sliders := fun which v t =>
      match which with
      | Slider.rangeSliderMin => updateSlider fuel v (-1) (-1) t
      | Slider.rangeSliderMax => updateSlider fuel (-1) v (-1) t
      | Slider.frameSlider => updateSlider fuel (-1) (-1) v t
    let mut s := s0
    let mut value := value
    if min ≥ 0 then
      if min > s.rangeSliderMax then
        s ← setValue emit Slider.rangeSliderMin s.rangeSliderMax s
      if min > s.frameSlider then
        s ← setValue emit Slider.frameSlider min s
        s := { s with labelFrame := min }
      s := { s with labelRangeMin := min }
    if max ≥ 0 then
      if max < s.rangeSliderMin then
        s ← setValue emit Slider.rangeSliderMax s.rangeSliderMin s
      if max < s.frameSlider then
        s ← setValue emit Slider.frameSlider max s
        s := { s with labelFrame := max }
      s := { s with labelRangeMax := max }
    if value ≥ 0 then
      if value < s.rangeSliderMin then
        value := s.rangeSliderMin
      if value > s.rangeSliderMax then
        value := s.rangeSliderMax
      s ← setValue emit Slider.frameSlider value s
      s := { s with labelFrame := value }
      s := { s with getFrame := s.getFrame ++ [value] }
    return s

/-- The lambdas connected to the three `valueChanged` signals. -/
def valueChanged (fuel : Nat) (which : Slider) (v : Int) (s : Sliders) : Option Sliders :=
  match which with
  | Slider.rangeSliderMin => updateSlider fuel v (-1) (-1) s
  | Slider.rangeSliderMax => updateSlider fuel (-1) v (-1) s
  | Slider.frameSlider => updateSlider fuel (-1) (-1) v s

/-- The user moves one slider to `v`: the slider takes the value as by
`setValue` and the handlers run until they have all returned. -/
def userMove (fuel : Nat) (which : Slider) (v : Int) (s : Sliders) : Option Sliders :=
  setValue (valueChanged fuel) which v s

/-- A sequence of user moves, each handled to the end before the next. -/
def userMoves (fuel : Nat) : Sliders → List (Slider × Int) → Option Sliders
  | s, [] => some s
  | s, (which, v) :: rest => (userMove fuel which v s).bind (fun t => userMoves fuel t rest)

/-- The order of the slider values: `0 ≤ rangeMin ≤ frame ≤ rangeMax ≤ maximum`. -/
def Sliders.ordered (s : Sliders) : Prop :=
  0 ≤ s.rangeSliderMin ∧ s.rangeSliderMin ≤ s.frameSlider ∧
    s.frameSlider ≤ s.rangeSliderMax ∧ s.rangeSliderMax ≤ s.maximum

/-- Each label shows the value of its slider. -/
def Sliders.labelsCurrent (s : Sliders) : Prop :=
  s.labelRangeMin = s.rangeSliderMin ∧ s.labelRangeMax = s.rangeSliderMax ∧
    s.labelFrame = s.frameSlider

instance (s : Sliders) : Decidable s.ordered := by
  unfold Sliders.ordered; infer_instance

instance (s : Sliders) : Decidable s.labelsCurrent := by
  unfold Sliders.labelsCurrent; infer_instance

/-! ## Sample inputs -/

/-- A request that passes the three guards. -/
def validRequest : Request :=
  { fileName := "video.mp4", roiSize := 50, roiCenter := ⟨320, 240⟩,
    thresholdLow := 50, thresholdHigh := 200, rangeSliderMin := 0, rangeSliderMax := 4 }

/-- The same request with the thresholds the wrong way round. -/
def swappedThresholds : Request :=
  { validRequest with thresholdLow := 200, thresholdHigh := 50 }

/-- The same request with the ROI moved. -/
def movedRoi : Request :=
  { validRequest with roiCenter := ⟨100, 80⟩ }

/-- The same video and ROI with other thresholds and another frame range. -/
def otherRange : Request :=
  { validRequest with
    thresholdLow := 40, thresholdHigh := 180, rangeSliderMin := 1, rangeSliderMax := 3 }

/-- Sliders over [0, 10] with analysis range 0 to 5, frame 3 and current labels. -/
def exampleSliders : Sliders :=
  { maximum := 10, rangeSliderMin := 0, rangeSliderMax := 5, frameSlider := 3,
    labelRangeMin := 0, labelRangeMax := 5, labelFrame := 3, getFrame := [] }

/-- A fresh ingestion: `analyze` calls `clearResults`, then
`readFramesAsync(fileName)`, then the counter, each once and in this order, and
remembers the settings of the request. -/
def ingestsAfresh (counter : Series → ℚ → ℚ → Int → Int → Int) (s : Session) (r : Request) :
    Prop :=
  (analyze counter s r).2 =
      [Call.clearResults, Call.readFramesAsync r.fileName,
        Call.calculateCircleChange r.thresholdLow r.thresholdHigh r.rangeSliderMin
          r.rangeSliderMax] ∧
    (analyze counter s r).1.prevSettings = r.settings

/-! ## Theorems: the ROI bound -/

theorem wrapInt32_of_fits (n : Int) (h : fitsInt32 n) : wrapInt32 n = n := by
  unfold fitsInt32 at h
  unfold wrapInt32
  omega

theorem wrapInt32_fits (n : Int) : fitsInt32 (wrapInt32 n) := by
  unfold fitsInt32 wrapInt32
  omega

theorem cdiv_two_eq (n : Int) (h0 : 0 ≤ n) (h1 : n ≤ 2147483647) : cdiv n 2 = n / 2 := by
  unfold cdiv
  rw [Int.tdiv_eq_ediv h0 (by decide)]
  exact wrapInt32_of_fits _ (by unfold fitsInt32; omega)

/-- Where neither `center - roiSize/2` nor `center + roiSize/2` leaves the `int`
range, the bound is the mathematical one. -/
theorem updateRoi_bound_exact (roiCenter : QPoint) (roiSize : Int)
    (h1 : 0 ≤ roiSize) (h2 : roiSize ≤ 2147483647)
    (hx : -2147483648 + roiSize / 2 ≤ roiCenter.x ∧ roiCenter.x ≤ 2147483647 - roiSize / 2)
    (hy : -2147483648 + roiSize / 2 ≤ roiCenter.y ∧ roiCenter.y ≤ 2147483647 - roiSize / 2) :
    (updateRoi roiCenter roiSize).bound =
      { xMin := roiCenter.x - roiSize / 2, xMax := roiCenter.x + roiSize / 2,
        yMin := roiCenter.y - roiSize / 2, yMax := roiCenter.y + roiSize / 2 } := by
  simp only [updateRoi, cdiv_two_eq roiSize h1 h2, isub, iadd]
  rw [wrapInt32_of_fits (roiCenter.x - roiSize / 2) (by unfold fitsInt32; omega),
    wrapInt32_of_fits (roiCenter.x + roiSize / 2) (by unfold fitsInt32; omega),
    wrapInt32_of_fits (roiCenter.y - roiSize / 2) (by unfold fitsInt32; omega),
    wrapInt32_of_fits (roiCenter.y + roiSize / 2) (by unfold fitsInt32; omega)]

/-- Where no `int` operation overflows, the extent of the bound is `roiSize` for
an even side and `roiSize - 1` for an odd one. -/
theorem updateRoi_bound_side (roiCenter : QPoint) (roiSize : Int)
    (h1 : 0 ≤ roiSize) (h2 : roiSize ≤ 2147483647)
    (hx : -2147483648 + roiSize / 2 ≤ roiCenter.x ∧ roiCenter.x ≤ 2147483647 - roiSize / 2)
    (hy : -2147483648 + roiSize / 2 ≤ roiCenter.y ∧ roiCenter.y ≤ 2147483647 - roiSize / 2) :
    (updateRoi roiCenter roiSize).bound.xMax - (updateRoi roiCenter roiSize).bound.xMin
        = roiSize - roiSize % 2 ∧
      (updateRoi roiCenter roiSize).bound.yMax - (updateRoi roiCenter roiSize).bound.yMin
        = roiSize - roiSize % 2 := by
  rw [updateRoi_bound_exact roiCenter roiSize h1 h2 hx hy]
  constructor <;> (dsimp only; omega)

/-- C4, as the code has it: for every side from 1 to 1000 and every ROI center
whose coordinates lie at least `roiSize/2` inside the `int` range (every pixel
coordinate of a frame does), the bound that `updateRoi` passes to `setBound` is
`(x - roiSize/2, x + roiSize/2, y - roiSize/2, y + roiSize/2)` and satisfies
`xMin ≤ xMax` and `yMin ≤ yMax`. -/
theorem updateRoi_bound_ordered (roiCenter : QPoint) (roiSize : Int)
    (h1 : 1 ≤ roiSize) (h2 : roiSize ≤ 1000)
    (hx : -2147483648 + cdiv roiSize 2 ≤ roiCenter.x ∧
      roiCenter.x ≤ 2147483647 - cdiv roiSize 2)
    (hy : -2147483648 + cdiv roiSize 2 ≤ roiCenter.y ∧
      roiCenter.y ≤ 2147483647 - cdiv roiSize 2) :
    (updateRoi roiCenter roiSize).bound =
        { xMin := roiCenter.x - roiSize / 2, xMax := roiCenter.x + roiSize / 2,
          yMin := roiCenter.y - roiSize / 2, yMax := roiCenter.y + roiSize / 2 } ∧
      cdiv roiSize 2 = roiSize / 2 ∧
      (updateRoi roiCenter roiSize).bound.xMin ≤ (updateRoi roiCenter roiSize).bound.xMax ∧
      (updateRoi roiCenter roiSize).bound.yMin ≤ (updateRoi roiCenter roiSize).bound.yMax := by
  have hc := cdiv_two_eq roiSize (by omega) (by omega)
  rw [hc] at hx hy
  have hb := updateRoi_bound_exact roiCenter roiSize (by omega) (by omega) hx hy
  refine ⟨hb, hc, ?_, ?_⟩ <;> rw [hb] <;> (dsimp only; omega)

theorem updateRoi_bound_ordered_witness :
    (1 : Int) ≤ 50 ∧ (50 : Int) ≤ 1000 ∧
      (-2147483648 + cdiv 50 2 ≤ 320 ∧ 320 ≤ 2147483647 - cdiv 50 2) ∧
      (-2147483648 + cdiv 50 2 ≤ 240 ∧ 240 ≤ 2147483647 - cdiv 50 2) ∧
      (updateRoi ⟨320, 240⟩ 50).bound = { xMin := 295, xMax := 345, yMin := 215, yMax := 265 } ∧
      (updateRoi ⟨320, 240⟩ 50).bound.xMin ≤ (updateRoi ⟨320, 240⟩ 50).bound.xMax ∧
      (updateRoi ⟨320, 240⟩ 50).bound.yMin ≤ (updateRoi ⟨320, 240⟩ 50).bound.yMax :=
  ⟨by decide, by decide, by decide, by decide,
    (updateRoi_bound_ordered ⟨320, 240⟩ 50 (by decide) (by decide) (by decide) (by decide)).1,
    (updateRoi_bound_ordered ⟨320, 240⟩ 50 (by decide) (by decide) (by decide) (by decide)).2.2⟩

/-- C4, as stated, fails: at the center (2147483647, 2147483647), which a
`QPoint` can hold, with the accepted side 2, `x + roiSize/2` wraps around and
`setBound` receives `xMin = 2147483646 > xMax = -2147483648`, and likewise for
`y`. -/
theorem updateRoi_bound_wraps :
    (1 : Int) ≤ 2 ∧ (2 : Int) ≤ 1000 ∧ fitsInt32 2147483647 ∧
      (updateRoi ⟨2147483647, 2147483647⟩ 2).bound =
        { xMin := 2147483646, xMax := -2147483648, yMin := 2147483646, yMax := -2147483648 } ∧
      ¬ ((updateRoi ⟨2147483647, 2147483647⟩ 2).bound.xMin ≤
          (updateRoi ⟨2147483647, 2147483647⟩ 2).bound.xMax ∧
        (updateRoi ⟨2147483647, 2147483647⟩ 2).bound.yMin ≤
          (updateRoi ⟨2147483647, 2147483647⟩ 2).bound.yMax) := by
  decide

/-- C8: at center (100, 100) with the odd side 3, `updateRoi` draws the square
of side 3 with left and top 99, and hands `setBound` the bound (99, 101, 99,
101), whose extent `xMax - xMin = yMax - yMin` is 2 and not `roiSize`. -/
theorem updateRoi_bound_side_odd :
    (updateRoi ⟨100, 100⟩ 3).rect = { left := 99, top := 99, width := 3, height := 3 } ∧
      (updateRoi ⟨100, 100⟩ 3).bound = { xMin := 99, xMax := 101, yMin := 99, yMax := 101 } ∧
      (updateRoi ⟨100, 100⟩ 3).bound.xMax - (updateRoi ⟨100, 100⟩ 3).bound.xMin = 2 ∧
      (updateRoi ⟨100, 100⟩ 3).bound.yMax - (updateRoi ⟨100, 100⟩ 3).bound.yMin = 2 ∧
      (updateRoi ⟨100, 100⟩ 3).bound.xMax - (updateRoi ⟨100, 100⟩ 3).bound.xMin ≠
        (updateRoi ⟨100, 100⟩ 3).rect.width := by
  decide

/-! ## Theorems: `analyze` -/

theorem analyze_of_rejected (counter : Series → ℚ → ℚ → Int → Int → Int) (s : Session)
    (r : Request) (h : ¬ passesValidation r) :
    (analyze counter s r).1 = s ∧ ∃ text, (analyze counter s r).2 = [Call.warning text] := by
  unfold passesValidation at h
  unfold analyze
  by_cases hf : r.fileName = ""
  · simp [hf]
  · by_cases hr : r.roiCenter.x < 0 ∨ r.roiCenter.y < 0
    · simp [hf, hr]
    · have ht : r.thresholdLow ≥ r.thresholdHigh := by
        by_contra hlt
        exact h ⟨hf, hr, lt_of_not_ge hlt⟩
      simp [hf, hr, ht]

theorem analyze_of_validated (counter : Series → ℚ → ℚ → Int → Int → Int) (s : Session)
    (r : Request) (h : passesValidation r) :
    analyze counter s r =
      if s.prevSettings.fileName ≠ r.fileName ∨ s.prevSettings.roiSize ≠ r.roiSize ∨
          s.prevSettings.roiCenter ≠ r.roiCenter then
        ({ prevSettings := r.settings
           labelCircleChange :=
             some (counter (clearResults s.results) r.thresholdLow r.thresholdHigh
               r.rangeSliderMin r.rangeSliderMax)
           lineSeries := []
           results := clearResults s.results },
          [Call.clearResults, Call.readFramesAsync r.fileName,
            Call.calculateCircleChange r.thresholdLow r.thresholdHigh r.rangeSliderMin
              r.rangeSliderMax])
      else
        ({ prevSettings := r.settings
           labelCircleChange :=
             some (counter s.results r.thresholdLow r.thresholdHigh
               r.rangeSliderMin r.rangeSliderMax)
           lineSeries := s.lineSeries
           results := s.results },
          [Call.calculateCircleChange r.thresholdLow r.thresholdHigh r.rangeSliderMin
            r.rangeSliderMax]) := by
  obtain ⟨hf, hr, ht⟩ := h
  have ht2 : ¬ r.thresholdLow ≥ r.thresholdHigh := not_le.mpr ht
  unfold analyze
  rw [if_neg hf, if_neg hr, if_neg ht2]
  by_cases hc : s.prevSettings.fileName ≠ r.fileName ∨ s.prevSettings.roiSize ≠ r.roiSize ∨
      s.prevSettings.roiCenter ≠ r.roiCenter
  · simp [hc, Request.settings]
  · simp [hc, Request.settings]

theorem run_notValidated_prevSettings (counter : Series → ℚ → ℚ → Int → Int → Int)
    (between : List Event) (hb : ∀ e ∈ between, e.notValidated) (s : Session) :
    (run counter s between).prevSettings = s.prevSettings := by
  induction between generalizing s with
  | nil => rfl
  | cons e es ih =>
    have he : e.notValidated := hb e (List.mem_cons_self e es)
    have hes : ∀ e' ∈ es, e'.notValidated := fun e' h' => hb e' (List.mem_cons_of_mem e h')
    have hstep : (step counter s e).1.prevSettings = s.prevSettings := by
      cases e with
      | click r => exact congrArg Session.prevSettings (analyze_of_rejected counter s r he).1
      | loadFrame i m => rfl
      | updateResults ms start => rfl
    show (run counter (step counter s e).1 es).prevSettings = s.prevSettings
    rw [ih hes, hstep]

theorem analyze_prevSettings (counter : Series → ℚ → ℚ → Int → Int → Int) (s : Session)
    (r : Request) (h : passesValidation r) :
    (analyze counter s r).1.prevSettings = r.settings := by
  rw [analyze_of_validated counter s r h]
  split <;> rfl

/-- C1: when no video is selected, or the ROI is unset, or `thresholdLow ≥
thresholdHigh`, `analyze` calls none of `clearResults`, `readFramesAsync` and
`calculateCircleChange` and leaves `prevSettings` and the displayed count as
they were; and whatever the window state, every `calculateCircleChange` call
that `analyze` makes has `low < high`. -/
theorem analyze_rejected_makes_no_call (counter : Series → ℚ → ℚ → Int → Int → Int)
    (s : Session) (r : Request) :
    ((r.fileName = "" ∨ (r.roiCenter.x < 0 ∨ r.roiCenter.y < 0) ∨
          r.thresholdLow ≥ r.thresholdHigh) →
        Call.clearResults ∉ (analyze counter s r).2 ∧
        (∀ f, Call.readFramesAsync f ∉ (analyze counter s r).2) ∧
        (∀ l h a b, Call.calculateCircleChange l h a b ∉ (analyze counter s r).2) ∧
        (analyze counter s r).1.prevSettings = s.prevSettings ∧
        (analyze counter s r).1.labelCircleChange = s.labelCircleChange) ∧
      (∀ l h a b, Call.calculateCircleChange l h a b ∈ (analyze counter s r).2 → l < h) := by
  constructor
  · intro hrej
    have hnv : ¬ passesValidation r := by
      rintro ⟨hf, hr, ht⟩
      rcases hrej with h | h | h
      · exact hf h
      · exact hr h
      · exact absurd ht (not_lt.mpr h)
    obtain ⟨hs, text, hc⟩ := analyze_of_rejected counter s r hnv
    rw [hc, hs]
    simp
  · intro l h a b hmem
    by_cases hv : passesValidation r
    · rw [analyze_of_validated counter s r hv] at hmem
      have ht := hv.2.2
      split at hmem
      · simp at hmem
        obtain ⟨rfl, rfl, -, -⟩ := hmem
        exact ht
      · simp at hmem
        obtain ⟨rfl, rfl, -, -⟩ := hmem
        exact ht
    · obtain ⟨-, text, hc⟩ := analyze_of_rejected counter s r hv
      rw [hc] at hmem
      simp at hmem

theorem analyze_rejected_makes_no_call_witness :
    (swappedThresholds.thresholdLow ≥ swappedThresholds.thresholdHigh) ∧
      (Call.clearResults ∉ (analyze calculateCircleChange Session.initial swappedThresholds).2 ∧
        (∀ f, Call.readFramesAsync f ∉
          (analyze calculateCircleChange Session.initial swappedThresholds).2) ∧
        (∀ l h a b, Call.calculateCircleChange l h a b ∉
          (analyze calculateCircleChange Session.initial swappedThresholds).2) ∧
        (analyze calculateCircleChange Session.initial swappedThresholds).1.prevSettings =
          Session.initial.prevSettings ∧
        (analyze calculateCircleChange Session.initial swappedThresholds).1.labelCircleChange =
          Session.initial.labelCircleChange) ∧
      Call.calculateCircleChange 50 200 0 4 ∈
        (analyze calculateCircleChange Session.initial validRequest).2 ∧
      (50 : ℚ) < 200 :=
  ⟨by decide,
    (analyze_rejected_makes_no_call calculateCircleChange Session.initial swappedThresholds).1
      (Or.inr (Or.inr (by decide))),
    by decide,
    (analyze_rejected_makes_no_call calculateCircleChange Session.initial validRequest).2
      50 200 0 4 (by decide)⟩

/-- C2: take two requests that pass validation, with only rejected requests
and frame deliveries between them, and with the same `fileName`, `roiSize` and
`roiCenter` (thresholds and frame range are free).  The second one calls
neither `clearResults` nor `readFramesAsync` and leaves the result series as it
found it. -/
theorem analyze_same_settings_reuses (counter : Series → ℚ → ℚ → Int → Int → Int)
    (s : Session) (r1 r2 : Request) (between : List Event)
    (h1 : passesValidation r1) (h2 : passesValidation r2)
    (hb : ∀ e ∈ between, e.notValidated)
    (hf : r2.fileName = r1.fileName) (hs : r2.roiSize = r1.roiSize)
    (hc : r2.roiCenter = r1.roiCenter) :
    Call.clearResults ∉ (analyze counter (run counter (analyze counter s r1).1 between) r2).2 ∧
      (∀ f, Call.readFramesAsync f ∉
        (analyze counter (run counter (analyze counter s r1).1 between) r2).2) ∧
      (analyze counter (run counter (analyze counter s r1).1 between) r2).1.results =
        (run counter (analyze counter s r1).1 between).results := by
  have hp : (run counter (analyze counter s r1).1 between).prevSettings = r1.settings := by
    rw [run_notValidated_prevSettings counter between hb, analyze_prevSettings counter s r1 h1]
  rw [analyze_of_validated counter _ r2 h2, hp]
  simp [Request.settings, hf, hs, hc]

theorem analyze_same_settings_reuses_witness :
    passesValidation validRequest ∧ passesValidation otherRange ∧
      Call.clearResults ∉
        (analyze calculateCircleChange
          (run calculateCircleChange (analyze calculateCircleChange Session.initial validRequest).1
            [Event.loadFrame 0 10, Event.updateResults [10] 0, Event.click swappedThresholds])
          otherRange).2 ∧
      (∀ f, Call.readFramesAsync f ∉
        (analyze calculateCircleChange
          (run calculateCircleChange (analyze calculateCircleChange Session.initial validRequest).1
            [Event.loadFrame 0 10, Event.updateResults [10] 0, Event.click swappedThresholds])
          otherRange).2) ∧
      (analyze calculateCircleChange
          (run calculateCircleChange (analyze calculateCircleChange Session.initial validRequest).1
            [Event.loadFrame 0 10, Event.updateResults [10] 0, Event.click swappedThresholds])
          otherRange).1.results =
        (run calculateCircleChange (analyze calculateCircleChange Session.initial validRequest).1
          [Event.loadFrame 0 10, Event.updateResults [10] 0, Event.click swappedThresholds]).results :=
  ⟨by decide, by decide,
    analyze_same_settings_reuses calculateCircleChange Session.initial validRequest otherRange
      [Event.loadFrame 0 10, Event.updateResults [10] 0, Event.click swappedThresholds]
      (by decide) (by decide) (by decide) rfl rfl rfl⟩

theorem ingestsAfresh_of_changed (counter : Series → ℚ → ℚ → Int → Int → Int) (s : Session)
    (r : Request) (h : passesValidation r)
    (hc : s.prevSettings.fileName ≠ r.fileName ∨ s.prevSettings.roiSize ≠ r.roiSize ∨
      s.prevSettings.roiCenter ≠ r.roiCenter) :
    ingestsAfresh counter s r := by
  unfold ingestsAfresh
  rw [analyze_of_validated counter s r h, if_pos hc]
  exact ⟨rfl, rfl⟩

/-- C3: a request that passes validation and differs in `fileName`, `roiSize`
or `roiCenter` from the previous validated request, and likewise the first
validated request of a session, makes `analyze` call `clearResults` once, then
`readFramesAsync(fileName)` once, then the counter, and remember the settings
of the request as the previous ones. -/
theorem analyze_changed_settings_ingests (counter : Series → ℚ → ℚ → Int → Int → Int)
    (s : Session) (r1 r2 : Request) (between : List Event)
    (h1 : passesValidation r1) (h2 : passesValidation r2)
    (hb : ∀ e ∈ between, e.notValidated) :
    ((r2.fileName ≠ r1.fileName ∨ r2.roiSize ≠ r1.roiSize ∨ r2.roiCenter ≠ r1.roiCenter) →
        ingestsAfresh counter (run counter (analyze counter s r1).1 between) r2) ∧
      ingestsAfresh counter (run counter Session.initial between) r2 := by
  constructor
  · intro hd
    apply ingestsAfresh_of_changed counter _ r2 h2
    rw [run_notValidated_prevSettings counter between hb, analyze_prevSettings counter s r1 h1]
    simp only [Request.settings]
    rcases hd with h | h | h
    · exact Or.inl (fun e => h e.symm)
    · exact Or.inr (Or.inl (fun e => h e.symm))
    · exact Or.inr (Or.inr (fun e => h e.symm))
  · apply ingestsAfresh_of_changed counter _ r2 h2
    rw [run_notValidated_prevSettings counter between hb]
    exact Or.inl (fun e => h2.1 e.symm)

theorem analyze_changed_settings_ingests_witness :
    passesValidation validRequest ∧ passesValidation movedRoi ∧
      movedRoi.roiCenter ≠ validRequest.roiCenter ∧
      ingestsAfresh calculateCircleChange
        (run calculateCircleChange (analyze calculateCircleChange Session.initial validRequest).1
          [Event.loadFrame 0 10, Event.click swappedThresholds])
        movedRoi ∧
      ingestsAfresh calculateCircleChange
        (run calculateCircleChange Session.initial
          [Event.loadFrame 0 10, Event.click swappedThresholds])
        movedRoi :=
  ⟨by decide, by decide, by decide,
    (analyze_changed_settings_ingests calculateCircleChange Session.initial validRequest movedRoi
      [Event.loadFrame 0 10, Event.click swappedThresholds]
      (by decide) (by decide) (by decide)).1 (Or.inr (Or.inr (by decide))),
    (analyze_changed_settings_ingests calculateCircleChange Session.initial validRequest movedRoi
      [Event.loadFrame 0 10, Event.click swappedThresholds]
      (by decide) (by decide) (by decide)).2⟩

/-- C9: for a request that passes validation and whose settings differ from
`prevSettings`, the calls of `analyze` are exactly `clearResults`,
`readFramesAsync(fileName)`, `calculateCircleChange(low, high, rangeMin,
rangeMax)` in this order; the series is empty when the counter runs, so the
displayed count is the counter's value on the empty series, which is 0 for the
counter of the spec. -/
theorem analyze_fresh_counts_empty_series (counter : Series → ℚ → ℚ → Int → Int → Int)
    (s : Session) (r : Request) (h : passesValidation r)
    (hc : s.prevSettings.fileName ≠ r.fileName ∨ s.prevSettings.roiSize ≠ r.roiSize ∨
      s.prevSettings.roiCenter ≠ r.roiCenter) :
    (analyze counter s r).2 =
        [Call.clearResults, Call.readFramesAsync r.fileName,
          Call.calculateCircleChange r.thresholdLow r.thresholdHigh r.rangeSliderMin
            r.rangeSliderMax] ∧
      clearResults s.results = [] ∧
      (analyze counter s r).1.results = [] ∧
      (analyze counter s r).1.labelCircleChange =
        some (counter [] r.thresholdLow r.thresholdHigh r.rangeSliderMin r.rangeSliderMax) ∧
      (analyze calculateCircleChange s r).1.labelCircleChange = some 0 := by
  rw [analyze_of_validated counter s r h, if_pos hc,
    analyze_of_validated calculateCircleChange s r h, if_pos hc]
  refine ⟨rfl, rfl, rfl, rfl, ?_⟩
  simp [clearResults, calculateCircleChange, range, walk]

theorem analyze_fresh_counts_empty_series_witness :
    passesValidation validRequest ∧
      Session.initial.prevSettings.fileName ≠ validRequest.fileName ∧
      (analyze calculateCircleChange { Session.initial with results := [(0, 10), (1, 250)] }
          validRequest).2 =
        [Call.clearResults, Call.readFramesAsync "video.mp4",
          Call.calculateCircleChange 50 200 0 4] ∧
      (analyze calculateCircleChange { Session.initial with results := [(0, 10), (1, 250)] }
          validRequest).1.labelCircleChange = some 0 :=
  ⟨by decide, by decide,
    (analyze_fresh_counts_empty_series calculateCircleChange
      { Session.initial with results := [(0, 10), (1, 250)] } validRequest (by decide)
      (Or.inl (by decide))).1,
    (analyze_fresh_counts_empty_series calculateCircleChange
      { Session.initial with results := [(0, 10), (1, 250)] } validRequest (by decide)
      (Or.inl (by decide))).2.2.2.2⟩

/-! ## Theorems: the counter -/

theorem walk_eq_switches (low high : ℚ) (values : List ℚ) (state : Option Level) (count : Nat) :
    walk low high state count values
      = count + switches (state.toList ++ classified low high values) := by
  induction values generalizing state count with
  | nil =>
    cases state <;> simp [walk, classified, switches]
  | cons v rest ih =>
    cases hc : classify low high v with
    | none =>
      have hcl : classified low high (v :: rest) = classified low high rest := by
        simp [classified, List.filterMap_cons, hc]
      rw [hcl, ← ih]
      simp [walk, hc]
    | some c =>
      have hcl : classified low high (v :: rest) = c :: classified low high rest := by
        simp [classified, List.filterMap_cons, hc]
      rw [hcl]
      cases state with
      | none =>
        have := ih (some c) count
        simp only [Option.toList, List.singleton_append, List.nil_append] at this ⊢
        rw [← this]
        simp [walk, hc]
      | some p =>
        have := ih (some c) (if p = c then count else count + 1)
        simp only [Option.toList, List.singleton_append] at this ⊢
        have hw : walk low high (some p) count (v :: rest)
            = walk low high (some c) (if p = c then count else count + 1) rest := by
          simp [walk, hc]
        rw [hw, this]
        by_cases hpc : p = c
        · simp [hpc, switches]
        · simp [hpc, switches]; omega

theorem classified_nil_of_between (low high : ℚ) (values : List ℚ)
    (h : ∀ v ∈ values, low < v ∧ v < high) : classified low high values = [] := by
  induction values with
  | nil => rfl
  | cons v rest ih =>
    have hv := h v (List.mem_cons_self v rest)
    have hc : classify low high v = none := by
      simp [classify, not_le.mpr hv.1, not_le.mpr hv.2]
    have hrest := ih (fun w hw => h w (List.mem_cons_of_mem v hw))
    simp [classified, List.filterMap_cons, hc] at hrest ⊢
    exact hrest

theorem range_sorted (series : Series) (startIndex endIndex : Int)
    (h : series.Pairwise (fun p q => p.1 < q.1)) :
    (range series startIndex endIndex).Pairwise (fun p q => p.1 < q.1) ∧
      ∀ p ∈ range series startIndex endIndex, startIndex ≤ p.1 ∧ p.1 ≤ endIndex := by
  constructor
  · exact List.Pairwise.sublist (List.filter_sublist series) h
  · intro p hp
    simpa using (List.mem_filter.mp hp).2

/-- C6: for `low < high` the count equals the number of switches between
"below" (value ≤ low) and "above" (value ≥ high) along the samples of the range,
where samples strictly between the thresholds are passed over and the first
classified sample is not counted; a range lying strictly between the thresholds
gives 0 whatever its length, and `[10, 60, 250, 60, 10]` with thresholds 50 and
200 over the full range gives 2. -/
theorem countTransitions_counts_switches (series : Series) (startIndex endIndex : Int)
    (low high : ℚ) (h : low < high) :
    countTransitions series startIndex endIndex low high
        = Except.ok
            (switches (classified low high ((range series startIndex endIndex).map Prod.snd))) ∧
      calculateCircleChange series low high startIndex endIndex
        = (switches (classified low high ((range series startIndex endIndex).map Prod.snd)) : Nat) ∧
      ((∀ p ∈ range series startIndex endIndex, low < p.2 ∧ p.2 < high) →
        countTransitions series startIndex endIndex low high = Except.ok 0) ∧
      countTransitions [(0, 10), (1, 60), (2, 250), (3, 60), (4, 10)] 0 4 50 200 = Except.ok 2 := by
  have hw := walk_eq_switches low high ((range series startIndex endIndex).map Prod.snd) none 0
  simp only [Option.toList, List.nil_append, Nat.zero_add] at hw
  refine ⟨?_, ?_, ?_, ?_⟩
  · simp [countTransitions, h, hw]
  · simp [calculateCircleChange, hw]
  · intro hb
    have hnil : classified low high ((range series startIndex endIndex).map Prod.snd) = [] := by
      apply classified_nil_of_between
      intro v hv
      obtain ⟨p, hp, rfl⟩ := List.mem_map.mp hv
      exact hb p hp
    simp [countTransitions, h, hw, hnil, switches]
  · rw [countTransitions, if_pos (by decide)]
    exact congrArg Except.ok (by decide)

theorem countTransitions_counts_switches_witness :
    (50 : ℚ) < 200 ∧
      countTransitions [(0, 10), (1, 60), (2, 250), (3, 60), (4, 10), (5, 300)] 1 4 50 200
        = Except.ok 1 ∧
      countTransitions [(0, 60), (1, 70), (2, 199)] 0 2 50 200 = Except.ok 0 := by
  have h := countTransitions_counts_switches [(0, 10), (1, 60), (2, 250), (3, 60), (4, 10), (5, 300)]
    1 4 50 200 (by decide)
  have h2 := countTransitions_counts_switches [(0, 60), (1, 70), (2, 199)] 0 2 50 200 (by decide)
  exact ⟨by decide, h.1.trans (congrArg Except.ok (by decide)), h2.2.2.1 (by decide)⟩

/-! ## Theorems: the sliders -/

theorem emit_eq_valueChanged (f : Nat) :
    (fun (which : Slider) (v : Int) (t : Sliders) =>
      match which with
      | Slider.rangeSliderMin => updateSlider f v (-1) (-1) t
      | Slider.rangeSliderMax => updateSlider f (-1) v (-1) t
      | Slider.frameSlider => updateSlider f (-1) (-1) v t) = valueChanged f := by
  funext which v t
  cases which <;> rfl

/-- The `value` branch alone. -/
theorem updateSlider_value (f : Nat) (v : Int) (t : Sliders) (h0 : 0 ≤ v) :
    updateSlider (f + 1) (-1) (-1) v t
      = (setValue (valueChanged f) Slider.frameSlider
          (if (if v < t.rangeSliderMin then t.rangeSliderMin else v) > t.rangeSliderMax
            then t.rangeSliderMax else (if v < t.rangeSliderMin then t.rangeSliderMin else v)) t).bind
          (fun r => some { r with
            labelFrame := (if (if v < t.rangeSliderMin then t.rangeSliderMin else v) > t.rangeSliderMax
              then t.rangeSliderMax else (if v < t.rangeSliderMin then t.rangeSliderMin else v))
            getFrame := r.getFrame ++
              [(if (if v < t.rangeSliderMin then t.rangeSliderMin else v) > t.rangeSliderMax
                then t.rangeSliderMax else (if v < t.rangeSliderMin then t.rangeSliderMin else v))] }) := by
  simp only [updateSlider, emit_eq_valueChanged]
  simp only [ge_iff_le, h0, if_true, show ¬ ((0:Int) ≤ -1) by decide, if_false]
  split_ifs <;> rfl

/-- The `min` branch alone. -/
theorem updateSlider_min (f : Nat) (m : Int) (t : Sliders) (h0 : 0 ≤ m) :
    updateSlider (f + 1) m (-1) (-1) t
      = ((if m > t.rangeSliderMax
            then setValue (valueChanged f) Slider.rangeSliderMin t.rangeSliderMax t
            else some t).bind
          (fun t1 =>
            if m > t1.frameSlider
              then (setValue (valueChanged f) Slider.frameSlider m t1).bind
                (fun t2 => some { t2 with labelFrame := m })
              else some t1)).bind
          (fun t3 => some { t3 with labelRangeMin := m }) := by
  simp only [updateSlider, emit_eq_valueChanged]
  simp only [ge_iff_le, h0, if_true, show ¬ ((0:Int) ≤ -1) by decide, if_false]
  by_cases h1 : m > t.rangeSliderMax
  · simp only [h1, if_true]
    cases hx : setValue (valueChanged f) Slider.rangeSliderMin t.rangeSliderMax t with
    | none => rfl
    | some t1 =>
      by_cases h2 : m > t1.frameSlider
      · simp only [Option.bind_eq_bind, Option.some_bind, bind, pure, h2, if_true]
        cases hy : setValue (valueChanged f) Slider.frameSlider m t1 <;> rfl
      · simp only [Option.bind_eq_bind, Option.some_bind, bind, pure, h2, if_false]
  · simp only [h1, if_false]
    by_cases h2 : m > t.frameSlider
    · simp only [Option.bind_eq_bind, Option.some_bind, bind, pure, h2, if_true]
      cases hy : setValue (valueChanged f) Slider.frameSlider m t <;> rfl
    · simp only [Option.bind_eq_bind, Option.some_bind, bind, pure, h2, if_false]

/-- The `max` branch alone. -/
theorem updateSlider_max (f : Nat) (m : Int) (t : Sliders) (h0 : 0 ≤ m) :
    updateSlider (f + 1) (-1) m (-1) t
      = ((if m < t.rangeSliderMin
            then setValue (valueChanged f) Slider.rangeSliderMax t.rangeSliderMin t
            else some t).bind
          (fun t1 =>
            if m < t1.frameSlider
              then (setValue (valueChanged f) Slider.frameSlider m t1).bind
                (fun t2 => some { t2 with labelFrame := m })
              else some t1)).bind
          (fun t3 => some { t3 with labelRangeMax := m }) := by
  simp only [updateSlider, emit_eq_valueChanged]
  simp only [ge_iff_le, h0, if_true, show ¬ ((0:Int) ≤ -1) by decide, if_false]
  by_cases h1 : m < t.rangeSliderMin
  · simp only [h1, if_true]
    cases hx : setValue (valueChanged f) Slider.rangeSliderMax t.rangeSliderMin t with
    | none => rfl
    | some t1 =>
      by_cases h2 : m < t1.frameSlider
      · simp only [Option.bind_eq_bind, Option.some_bind, bind, pure, h2, if_true]
        cases hy : setValue (valueChanged f) Slider.frameSlider m t1 <;> rfl
      · simp only [Option.bind_eq_bind, Option.some_bind, bind, pure, h2, if_false]
  · simp only [h1, if_false]
    by_cases h2 : m < t.frameSlider
    · simp only [Option.bind_eq_bind, Option.some_bind, bind, pure, h2, if_true]
      cases hy : setValue (valueChanged f) Slider.frameSlider m t <;> rfl
    · simp only [Option.bind_eq_bind, Option.some_bind, bind, pure, h2, if_false]

/-- The frame handler on a state whose frame slider already holds a value
inside the range: nothing moves, the label and the preview follow. -/
theorem frame_settled (f : Nat) (v : Int) (t : Sliders) (h0 : 0 ≤ v) (h1 : t.frameSlider = v)
    (h2 : t.rangeSliderMin ≤ v) (h3 : v ≤ t.rangeSliderMax) (h4 : v ≤ t.maximum) :
    updateSlider (f + 1) (-1) (-1) v t
      = some { t with labelFrame := v, getFrame := t.getFrame ++ [v] } := by
  rw [updateSlider_value f v t h0]
  have hc : (if (if v < t.rangeSliderMin then t.rangeSliderMin else v) > t.rangeSliderMax
      then t.rangeSliderMax else (if v < t.rangeSliderMin then t.rangeSliderMin else v)) = v := by
    rw [if_neg (not_lt.mpr h2), if_neg (not_lt.mpr h3)]
  rw [hc]
  have hq : qBound 0 v t.maximum = v := by
    unfold qBound; omega
  simp [setValue, hq, Sliders.value, h1]

/-- The frame handler on a state whose frame slider holds any value of the
slider range: the frame is pulled into the analysis range. -/
theorem frame_clamped (f : Nat) (v : Int) (t : Sliders) (h0 : 0 ≤ v) (h1 : t.frameSlider = v)
    (hr : 0 ≤ t.rangeSliderMin ∧ t.rangeSliderMin ≤ t.rangeSliderMax ∧
      t.rangeSliderMax ≤ t.maximum) (c : Int)
    (hc : c = max t.rangeSliderMin (min v t.rangeSliderMax)) :
    updateSlider (f + 2) (-1) (-1) v t
      = some { t with
          frameSlider := c, labelFrame := c
          getFrame := t.getFrame ++ (if c = v then [c] else [c, c]) } := by
  rw [updateSlider_value (f + 1) v t h0]
  have hcc : (if (if v < t.rangeSliderMin then t.rangeSliderMin else v) > t.rangeSliderMax
      then t.rangeSliderMax else (if v < t.rangeSliderMin then t.rangeSliderMin else v)) = c := by
    split_ifs <;> omega
  rw [hcc]
  have hq : qBound 0 c t.maximum = c := by
    unfold qBound; omega
  by_cases hv : c = v
  · subst hv
    simp [setValue, hq, Sliders.value, h1]
  · have hne : ¬ c = t.frameSlider := by rw [h1]; exact hv
    simp only [setValue, hq, Sliders.value, hne, if_false, valueChanged, Sliders.store]
    rw [frame_settled f c _ (by omega) rfl (by show t.rangeSliderMin ≤ c; omega)
      (by show c ≤ t.rangeSliderMax; omega) (by show c ≤ t.maximum; omega)]
    simp [hv]

/-- The `rangeSliderMin` handler when the new start is not past the end. -/
theorem min_inside (f : Nat) (m : Int) (t : Sliders) (h0 : 0 ≤ m) (h1 : t.rangeSliderMin = m)
    (h2 : m ≤ t.rangeSliderMax) (h3 : t.rangeSliderMax ≤ t.maximum) :
    updateSlider (f + 2) m (-1) (-1) t
      = if m > t.frameSlider then
          some { t with
            frameSlider := m, labelFrame := m, labelRangeMin := m
            getFrame := t.getFrame ++ [m] }
        else some { t with labelRangeMin := m } := by
  rw [updateSlider_min (f + 1) m t h0, if_neg (not_lt.mpr h2)]
  simp only [Option.some_bind]
  by_cases hf : m > t.frameSlider
  · have hq : qBound 0 m t.maximum = m := by unfold qBound; omega
    have hne : ¬ m = t.frameSlider := by omega
    simp only [hf, if_true, setValue, hq, Sliders.value, hne, if_false, valueChanged,
      Sliders.store]
    rw [frame_settled f m _ h0 rfl (by show t.rangeSliderMin ≤ m; omega)
      (by show m ≤ t.rangeSliderMax; omega) (by show m ≤ t.maximum; omega)]
    rfl
  · simp only [hf, if_false, Option.some_bind]

/-- The `rangeSliderMin` handler when the new start is past the end. -/
theorem min_above (f : Nat) (m : Int) (t : Sliders) (h1 : t.rangeSliderMin = m)
    (h2 : t.rangeSliderMax < m) (h3 : m ≤ t.maximum) (h4 : 0 ≤ t.frameSlider)
    (h5 : t.frameSlider ≤ t.rangeSliderMax) :
    updateSlider (f + 3) m (-1) (-1) t
      = some { t with
          rangeSliderMin := t.rangeSliderMax, frameSlider := t.rangeSliderMax
          labelRangeMin := m, labelFrame := m
          getFrame := t.getFrame ++ (if t.rangeSliderMax > t.frameSlider then [t.rangeSliderMax]
            else []) ++ [t.rangeSliderMax, t.rangeSliderMax] } := by
  rw [updateSlider_min (f + 2) m t (by omega), if_pos (by omega)]
  have hq : qBound 0 t.rangeSliderMax t.maximum = t.rangeSliderMax := by unfold qBound; omega
  have hne : ¬ t.rangeSliderMax = t.rangeSliderMin := by omega
  have hqm : qBound 0 m t.maximum = m := by unfold qBound; omega
  simp only [setValue, hq, Sliders.value, hne, if_false, valueChanged, Sliders.store]
  rw [min_inside f t.rangeSliderMax _ (by omega) rfl (by show t.rangeSliderMax ≤ t.rangeSliderMax; omega)
    (by show t.rangeSliderMax ≤ t.maximum; omega)]
  by_cases hf : t.rangeSliderMax > t.frameSlider
  · simp only [hf, if_true, Option.some_bind, h2, hqm]
    have hne2 : ¬ m = t.rangeSliderMax := by omega
    simp only [hne2, if_false]
    rw [frame_clamped f m _ (by omega) rfl
      ⟨by show 0 ≤ t.rangeSliderMax; omega, by show t.rangeSliderMax ≤ t.rangeSliderMax; omega,
        by show t.rangeSliderMax ≤ t.maximum; omega⟩ t.rangeSliderMax
      (by show t.rangeSliderMax = max t.rangeSliderMax (min m t.rangeSliderMax); omega)]
    simp [Ne.symm hne2]
  · have hfe : t.frameSlider = t.rangeSliderMax := by omega
    have hlt : m > t.frameSlider := by omega
    have hne2 : ¬ m = t.frameSlider := by omega
    simp only [hf, if_false, Option.some_bind, hlt, if_true, hqm, hne2]
    rw [frame_clamped f m _ (by omega) rfl
      ⟨by show 0 ≤ t.rangeSliderMax; omega, by show t.rangeSliderMax ≤ t.rangeSliderMax; omega,
        by show t.rangeSliderMax ≤ t.maximum; omega⟩ t.rangeSliderMax
      (by show t.rangeSliderMax = max t.rangeSliderMax (min m t.rangeSliderMax); omega)]
    have hne3 : ¬ t.rangeSliderMax = m := by omega
    simp [hne3, hfe]

/-- The `rangeSliderMax` handler when the new end is not before the start. -/
theorem max_inside (f : Nat) (m : Int) (t : Sliders) (h0 : 0 ≤ m) (h1 : t.rangeSliderMax = m)
    (h2 : t.rangeSliderMin ≤ m) (h3 : m ≤ t.maximum) :
    updateSlider (f + 2) (-1) m (-1) t
      = if m < t.frameSlider then
          some { t with
            frameSlider := m, labelFrame := m, labelRangeMax := m
            getFrame := t.getFrame ++ [m] }
        else some { t with labelRangeMax := m } := by
  rw [updateSlider_max (f + 1) m t h0, if_neg (not_lt.mpr h2)]
  simp only [Option.some_bind]
  by_cases hf : m < t.frameSlider
  · have hq : qBound 0 m t.maximum = m := by unfold qBound; omega
    have hne : ¬ m = t.frameSlider := by omega
    simp only [hf, if_true, setValue, hq, Sliders.value, hne, if_false, valueChanged,
      Sliders.store]
    rw [frame_settled f m _ h0 rfl (by show t.rangeSliderMin ≤ m; omega)
      (by show m ≤ t.rangeSliderMax; omega) (by show m ≤ t.maximum; omega)]
    rfl
  · simp only [hf, if_false, Option.some_bind]

/-- The `rangeSliderMax` handler when the new end is before the start. -/
theorem max_below (f : Nat) (m : Int) (t : Sliders) (h0 : 0 ≤ m) (h1 : t.rangeSliderMax = m)
    (h2 : m < t.rangeSliderMin) (h4 : t.rangeSliderMin ≤ t.frameSlider)
    (h5 : t.frameSlider ≤ t.maximum) :
    updateSlider (f + 3) (-1) m (-1) t
      = some { t with
          rangeSliderMax := t.rangeSliderMin, frameSlider := t.rangeSliderMin
          labelRangeMax := m, labelFrame := m
          getFrame := t.getFrame ++ (if t.rangeSliderMin < t.frameSlider then [t.rangeSliderMin]
            else []) ++ [t.rangeSliderMin, t.rangeSliderMin] } := by
  rw [updateSlider_max (f + 2) m t h0, if_pos h2]
  have hq : qBound 0 t.rangeSliderMin t.maximum = t.rangeSliderMin := by unfold qBound; omega
  have hne : ¬ t.rangeSliderMin = t.rangeSliderMax := by omega
  have hqm : qBound 0 m t.maximum = m := by unfold qBound; omega
  simp only [setValue, hq, Sliders.value, hne, if_false, valueChanged, Sliders.store]
  rw [max_inside f t.rangeSliderMin _ (by omega) rfl
    (by show t.rangeSliderMin ≤ t.rangeSliderMin; omega)
    (by show t.rangeSliderMin ≤ t.maximum; omega)]
  by_cases hf : t.rangeSliderMin < t.frameSlider
  · simp only [hf, if_true, Option.some_bind, h2, hqm]
    have hne2 : ¬ m = t.rangeSliderMin := by omega
    simp only [hne2, if_false]
    rw [frame_clamped f m _ h0 rfl
      ⟨by show 0 ≤ t.rangeSliderMin; omega, by show t.rangeSliderMin ≤ t.rangeSliderMin; omega,
        by show t.rangeSliderMin ≤ t.maximum; omega⟩ t.rangeSliderMin
      (by show t.rangeSliderMin = max t.rangeSliderMin (min m t.rangeSliderMin); omega)]
    simp [Ne.symm hne2]
  · have hfe : t.frameSlider = t.rangeSliderMin := by omega
    have hlt : m < t.frameSlider := by omega
    have hne2 : ¬ m = t.frameSlider := by omega
    simp only [hf, if_false, Option.some_bind, hlt, if_true, hqm, hne2]
    rw [frame_clamped f m _ h0 rfl
      ⟨by show 0 ≤ t.rangeSliderMin; omega, by show t.rangeSliderMin ≤ t.rangeSliderMin; omega,
        by show t.rangeSliderMin ≤ t.maximum; omega⟩ t.rangeSliderMin
      (by show t.rangeSliderMin = max t.rangeSliderMin (min m t.rangeSliderMin); omega)]
    have hne3 : ¬ t.rangeSliderMin = m := by omega
    simp [hne3, hfe]

/-- After any user move inside the slider range the handlers return, the three
values are ordered again, and every preview index lies in the slider range. -/
theorem userMove_settles (f : Nat) (which : Slider) (v : Int) (s : Sliders) (hs : s.ordered)
    (h0 : 0 ≤ v) (h1 : v ≤ s.maximum) :
    ∃ s', userMove (f + 3) which v s = some s' ∧ s'.ordered ∧ s'.maximum = s.maximum ∧
      ∃ extra, s'.getFrame = s.getFrame ++ extra ∧ ∀ i ∈ extra, 0 ≤ i ∧ i ≤ s.maximum := by
  obtain ⟨ha, hb, hc, hd⟩ := hs
  have hq : qBound 0 v s.maximum = v := by unfold qBound; omega
  unfold userMove setValue
  rw [hq]
  by_cases hv : v = s.value which
  · rw [if_pos hv]
    exact ⟨s, rfl, ⟨ha, hb, hc, hd⟩, rfl, [], by simp, by simp⟩
  · rw [if_neg hv]
    cases which with
    | rangeSliderMin =>
      simp only [valueChanged, Sliders.store]
      by_cases hin : v ≤ s.rangeSliderMax
      · rw [min_inside (f + 1) v _ h0 rfl (by show v ≤ s.rangeSliderMax; omega)
          (by show s.rangeSliderMax ≤ s.maximum; omega)]
        by_cases hf : v > s.frameSlider
        · rw [if_pos (by show v > s.frameSlider; exact hf)]
          refine ⟨_, rfl, ⟨?_, ?_, ?_, ?_⟩, rfl, [v], rfl, ?_⟩
          · show 0 ≤ v; omega
          · show v ≤ v; omega
          · show v ≤ s.rangeSliderMax; omega
          · show s.rangeSliderMax ≤ s.maximum; omega
          · intro i hi; simp at hi; omega
        · rw [if_neg (by show ¬ v > s.frameSlider; exact hf)]
          refine ⟨_, rfl, ⟨?_, ?_, ?_, ?_⟩, rfl, [], by simp, by simp⟩
          · show 0 ≤ v; omega
          · show v ≤ s.frameSlider; omega
          · show s.frameSlider ≤ s.rangeSliderMax; omega
          · show s.rangeSliderMax ≤ s.maximum; omega
      · rw [min_above f v _ rfl (by show s.rangeSliderMax < v; omega)
          (by show v ≤ s.maximum; omega) (by show 0 ≤ s.frameSlider; omega)
          (by show s.frameSlider ≤ s.rangeSliderMax; omega)]
        refine ⟨_, rfl, ⟨?_, ?_, ?_, ?_⟩, rfl,
          (if s.rangeSliderMax > s.frameSlider then [s.rangeSliderMax] else []) ++
            [s.rangeSliderMax, s.rangeSliderMax], ?_, ?_⟩
        · show 0 ≤ s.rangeSliderMax; omega
        · show s.rangeSliderMax ≤ s.rangeSliderMax; omega
        · show s.rangeSliderMax ≤ s.rangeSliderMax; omega
        · show s.rangeSliderMax ≤ s.maximum; omega
        · simp [List.append_assoc]
        · intro i hi
          have : i = s.rangeSliderMax := by
            split_ifs at hi <;> simp at hi <;> omega
          omega
    | rangeSliderMax =>
      simp only [valueChanged, Sliders.store]
      by_cases hin : s.rangeSliderMin ≤ v
      · rw [max_inside (f + 1) v _ h0 rfl (by show s.rangeSliderMin ≤ v; omega)
          (by show v ≤ s.maximum; omega)]
        by_cases hf : v < s.frameSlider
        · rw [if_pos (by show v < s.frameSlider; exact hf)]
          refine ⟨_, rfl, ⟨?_, ?_, ?_, ?_⟩, rfl, [v], rfl, ?_⟩
          · show 0 ≤ s.rangeSliderMin; omega
          · show s.rangeSliderMin ≤ v; omega
          · show v ≤ v; omega
          · show v ≤ s.maximum; omega
          · intro i hi; simp at hi; omega
        · rw [if_neg (by show ¬ v < s.frameSlider; exact hf)]
          refine ⟨_, rfl, ⟨?_, ?_, ?_, ?_⟩, rfl, [], by simp, by simp⟩
          · show 0 ≤ s.rangeSliderMin; omega
          · show s.rangeSliderMin ≤ s.frameSlider; omega
          · show s.frameSlider ≤ v; omega
          · show v ≤ s.maximum; omega
      · rw [max_below f v _ h0 rfl (by show v < s.rangeSliderMin; omega)
          (by show s.rangeSliderMin ≤ s.frameSlider; omega)
          (by show s.frameSlider ≤ s.maximum; omega)]
        refine ⟨_, rfl, ⟨?_, ?_, ?_, ?_⟩, rfl,
          (if s.rangeSliderMin < s.frameSlider then [s.rangeSliderMin] else []) ++
            [s.rangeSliderMin, s.rangeSliderMin], ?_, ?_⟩
        · show 0 ≤ s.rangeSliderMin; omega
        · show s.rangeSliderMin ≤ s.rangeSliderMin; omega
        · show s.rangeSliderMin ≤ s.rangeSliderMin; omega
        · show s.rangeSliderMin ≤ s.maximum; omega
        · simp [List.append_assoc]
        · intro i hi
          have : i = s.rangeSliderMin := by
            split_ifs at hi <;> simp at hi <;> omega
          omega
    | frameSlider =>
      simp only [valueChanged, Sliders.store]
      rw [frame_clamped (f + 1) v { s with frameSlider := v } h0 rfl
        ⟨by show 0 ≤ s.rangeSliderMin; omega, by show s.rangeSliderMin ≤ s.rangeSliderMax; omega,
          by show s.rangeSliderMax ≤ s.maximum; omega⟩
        (max s.rangeSliderMin (min v s.rangeSliderMax)) rfl]
      refine ⟨_, rfl, ⟨?_, ?_, ?_, ?_⟩, rfl, _, rfl, ?_⟩
      · show 0 ≤ s.rangeSliderMin; omega
      · show s.rangeSliderMin ≤ max s.rangeSliderMin (min v s.rangeSliderMax); omega
      · show max s.rangeSliderMin (min v s.rangeSliderMax) ≤ s.rangeSliderMax; omega
      · show s.rangeSliderMax ≤ s.maximum; omega
      · intro i hi
        have : i = max s.rangeSliderMin (min v s.rangeSliderMax) := by
          split_ifs at hi <;> simp at hi <;> omega
        omega

/-- The order of the three sliders survives any sequence of user moves inside
the slider range. -/
theorem userMoves_ordered (f : Nat) (moves : List (Slider × Int)) (s : Sliders) (hs : s.ordered)
    (hm : ∀ p ∈ moves, 0 ≤ p.2 ∧ p.2 ≤ s.maximum) :
    ∃ s', userMoves (f + 3) s moves = some s' ∧ s'.ordered ∧ s'.maximum = s.maximum := by
  induction moves generalizing s with
  | nil => exact ⟨s, rfl, hs, rfl⟩
  | cons p rest ih =>
    obtain ⟨which, v⟩ := p
    have hv := hm (which, v) (List.mem_cons_self _ _)
    obtain ⟨t, ht, hto, htm, -⟩ := userMove_settles f which v s hs hv.1 hv.2
    obtain ⟨s', hs', hso, hsm⟩ := ih t hto (fun q hq => by
      rw [htm]; exact hm q (List.mem_cons_of_mem _ hq))
    refine ⟨s', ?_, hso, hsm.trans htm⟩
    simp only [userMoves, ht, Option.some_bind]
    exact hs'

theorem analyze_call_args (counter : Series → ℚ → ℚ → Int → Int → Int) (s : Session)
    (r : Request) (l h : ℚ) (a b : Int)
    (hmem : Call.calculateCircleChange l h a b ∈ (analyze counter s r).2) :
    l = r.thresholdLow ∧ h = r.thresholdHigh ∧ a = r.rangeSliderMin ∧ b = r.rangeSliderMax := by
  by_cases hv : passesValidation r
  · rw [analyze_of_validated counter s r hv] at hmem
    split at hmem <;> simpa using hmem
  · obtain ⟨-, text, hc⟩ := analyze_of_rejected counter s r hv
    rw [hc] at hmem
    simp at hmem

/-- When the start slider is dragged past the end slider, the start slider and
the frame slider come back to the end value while `labelRangeMin` and
`labelFrame` are left showing the dragged value. -/
theorem userMove_min_past_end (f : Nat) (v : Int) (s : Sliders) (hs : s.ordered)
    (h : s.rangeSliderMax < v) (h1 : v ≤ s.maximum) :
    userMove (f + 3) Slider.rangeSliderMin v s
      = some { s with
          rangeSliderMin := s.rangeSliderMax, frameSlider := s.rangeSliderMax
          labelRangeMin := v, labelFrame := v
          getFrame := s.getFrame ++ (if s.rangeSliderMax > s.frameSlider then [s.rangeSliderMax]
            else []) ++ [s.rangeSliderMax, s.rangeSliderMax] } := by
  obtain ⟨ha, hb, hc, hd⟩ := hs
  have hq : qBound 0 v s.maximum = v := by unfold qBound; omega
  have hv : ¬ v = s.rangeSliderMin := by omega
  unfold userMove setValue
  rw [hq]
  simp only [Sliders.value, hv, if_false, valueChanged, Sliders.store]
  rw [min_above f v _ rfl (by show s.rangeSliderMax < v; omega)
    (by show v ≤ s.maximum; omega) (by show 0 ≤ s.frameSlider; omega)
    (by show s.frameSlider ≤ s.rangeSliderMax; omega)]

/-- When the end slider is dragged before the start slider, the end slider and
the frame slider come back to the start value while `labelRangeMax` and
`labelFrame` are left showing the dragged value. -/
theorem userMove_max_before_start (f : Nat) (v : Int) (s : Sliders) (hs : s.ordered)
    (h0 : 0 ≤ v) (h : v < s.rangeSliderMin) :
    userMove (f + 3) Slider.rangeSliderMax v s
      = some { s with
          rangeSliderMax := s.rangeSliderMin, frameSlider := s.rangeSliderMin
          labelRangeMax := v, labelFrame := v
          getFrame := s.getFrame ++ (if s.rangeSliderMin < s.frameSlider then [s.rangeSliderMin]
            else []) ++ [s.rangeSliderMin, s.rangeSliderMin] } := by
  obtain ⟨ha, hb, hc, hd⟩ := hs
  have hq : qBound 0 v s.maximum = v := by unfold qBound; omega
  have hv : ¬ v = s.rangeSliderMax := by omega
  unfold userMove setValue
  rw [hq]
  simp only [Sliders.value, hv, if_false, valueChanged, Sliders.store]
  rw [max_below f v _ h0 rfl (by show v < s.rangeSliderMin; omega)
    (by show s.rangeSliderMin ≤ s.frameSlider; omega)
    (by show s.frameSlider ≤ s.maximum; omega)]

/-- C5: from any state with `0 ≤ rangeMin ≤ frame ≤ rangeMax ≤ maximum`, a user
move of any of the three sliders to any value of `[0, maximum]` lets all the
nested `valueChanged` handlers return (three levels of nesting suffice) and
leaves `rangeMin ≤ rangeMax`; hence every `calculateCircleChange` call that
`analyze` makes with these slider values has `start ≤ end`. -/
theorem userMove_keeps_range_ordered (fuel : Nat) (which : Slider) (v : Int) (s : Sliders)
    (hfuel : 3 ≤ fuel) (hs : s.ordered) (h0 : 0 ≤ v) (h1 : v ≤ s.maximum) :
    ∃ s', userMove fuel which v s = some s' ∧ s'.rangeSliderMin ≤ s'.rangeSliderMax ∧
      ∀ (counter : Series → ℚ → ℚ → Int → Int → Int) (session : Session) (r : Request),
        r.rangeSliderMin = s'.rangeSliderMin → r.rangeSliderMax = s'.rangeSliderMax →
        ∀ l h a b, Call.calculateCircleChange l h a b ∈ (analyze counter session r).2 → a ≤ b := by
  obtain ⟨f, rfl⟩ : ∃ f, fuel = f + 3 := ⟨fuel - 3, by omega⟩
  obtain ⟨s', he, ⟨ha, hb, hc, hd⟩, -, -⟩ := userMove_settles f which v s hs h0 h1
  refine ⟨s', he, by omega, ?_⟩
  intro counter session r hmin hmax l h a b hmem
  obtain ⟨-, -, rfl, rfl⟩ := analyze_call_args counter session r l h a b hmem
  omega

theorem userMove_keeps_range_ordered_witness :
    exampleSliders.ordered ∧ (0 : Int) ≤ 8 ∧ (8 : Int) ≤ exampleSliders.maximum ∧
      ∃ s', userMove 3 Slider.rangeSliderMin 8 exampleSliders = some s' ∧
        s'.rangeSliderMin ≤ s'.rangeSliderMax ∧
        ∀ (counter : Series → ℚ → ℚ → Int → Int → Int) (session : Session) (r : Request),
          r.rangeSliderMin = s'.rangeSliderMin → r.rangeSliderMax = s'.rangeSliderMax →
          ∀ l h a b, Call.calculateCircleChange l h a b ∈ (analyze counter session r).2 → a ≤ b :=
  ⟨by decide, by decide, by decide,
    userMove_keeps_range_ordered 3 Slider.rangeSliderMin 8 exampleSliders (by decide) (by decide)
      (by decide) (by decide)⟩

/-- C7: from any state with `0 ≤ rangeMin ≤ frame ≤ rangeMax ≤ maximum ≤
frameCount - 1`, while a user move of any of the three sliders is handled every
index passed to `getFrame` lies in `[0, frameCount)`, the handlers return, and
afterwards `rangeMin ≤ frame ≤ rangeMax` holds again. -/
theorem userMove_getFrame_in_range (fuel : Nat) (which : Slider) (v : Int) (s : Sliders)
    (frameCount : Int) (hfuel : 3 ≤ fuel) (hs : s.ordered) (hmax : s.maximum ≤ frameCount - 1)
    (h0 : 0 ≤ v) (h1 : v ≤ s.maximum) :
    ∃ s', userMove fuel which v s = some s' ∧
      (∃ extra, s'.getFrame = s.getFrame ++ extra ∧ ∀ i ∈ extra, 0 ≤ i ∧ i < frameCount) ∧
      s'.rangeSliderMin ≤ s'.frameSlider ∧ s'.frameSlider ≤ s'.rangeSliderMax := by
  obtain ⟨f, rfl⟩ : ∃ f, fuel = f + 3 := ⟨fuel - 3, by omega⟩
  obtain ⟨s', he, ⟨ha, hb, hc, hd⟩, -, extra, hx, hi⟩ := userMove_settles f which v s hs h0 h1
  refine ⟨s', he, ⟨extra, hx, ?_⟩, hb, hc⟩
  intro i him
  have := hi i him
  omega

theorem userMove_getFrame_in_range_witness :
    exampleSliders.ordered ∧ exampleSliders.maximum ≤ 11 - 1 ∧
      ∃ s', userMove 4 Slider.rangeSliderMax 1 exampleSliders = some s' ∧
        (∃ extra, s'.getFrame = exampleSliders.getFrame ++ extra ∧
          ∀ i ∈ extra, 0 ≤ i ∧ i < 11) ∧
        s'.rangeSliderMin ≤ s'.frameSlider ∧ s'.frameSlider ≤ s'.rangeSliderMax :=
  ⟨by decide, by decide,
    userMove_getFrame_in_range 4 Slider.rangeSliderMax 1 exampleSliders 11 (by decide)
      (by decide) (by decide) (by decide) (by decide)⟩

/-- C10: from the state (rangeMin, frame, rangeMax) = (0, 3, 5) over [0, 10]
with all three labels current, dragging the start slider to 8 ends with all
three sliders at 5 while `labelRangeMin` and `labelFrame` show 8: the labels do
not show the values of their sliders. -/
theorem userMove_labels_stale :
    exampleSliders.ordered ∧ exampleSliders.labelsCurrent ∧
      userMove 3 Slider.rangeSliderMin 8 exampleSliders =
        some { maximum := 10, rangeSliderMin := 5, rangeSliderMax := 5, frameSlider := 5,
               labelRangeMin := 8, labelRangeMax := 5, labelFrame := 8, getFrame := [5, 5, 5] } ∧
      ∀ s', userMove 3 Slider.rangeSliderMin 8 exampleSliders = some s' → ¬ s'.labelsCurrent := by
  refine ⟨by decide, by decide, by decide, ?_⟩
  intro s' hs'
  have h : userMove 3 Slider.rangeSliderMin 8 exampleSliders =
      some { maximum := 10, rangeSliderMin := 5, rangeSliderMax := 5, frameSlider := 5,
             labelRangeMin := 8, labelRangeMax := 5, labelFrame := 8, getFrame := [5, 5, 5] } := by
    decide
  rw [h] at hs'
  cases hs'
  decide

end MainWindow
